import Mathlib

/-!
Shallow embedding of the Subbase_MR_Prediction repository: three Streamlit
form applications (appbase.py, appsubgrade.py, appbas11.py) that collect
soil-test parameters, validate them, assemble a single-row record and call
a regression model.  Numeric widget values are modelled as rationals, a
row as an ordered association list of column name and cell value, and a
loaded estimator as a function from rows to a scalar or an inference
error.  Each script rerun (one predict trigger) is a pure function from
the input snapshot, the model handle and the click flag to an outcome
record describing what the script did: which record it assembled, which
messages it showed, which rows it passed to the model and which result it
displayed.
-/

namespace Subbase

/-- A cell of the assembled single-row record: the widgets produce floats,
the Base variant inserts an integer AASHTO code, the demo variant inserts
the raw class string. -/
inductive Cell where
  | num : ℚ → Cell
  | int : ℕ → Cell
  | str : String → Cell
deriving DecidableEq, Repr

/-- A single-row record: ordered list of column name and cell value,
mirroring the column order of the pd.DataFrame literal. -/
abbrev Row : Type := List (String × Cell)

/-- A loaded estimator: its predict method on a single row either returns
one scalar or raises (modelled as an error message). -/
def Model : Type := Row → Except String ℚ

/-! ## Base variant (appbase.py) -/

/-- Snapshot of the Base variant's widget values at a rerun
(appbase.py lines 53-97). -/
structure BaseInput where
  layer_thickness : ℚ
  no_4_passing : ℚ
  no_10_passing : ℚ
  no_40_passing : ℚ
  no_80_passing : ℚ
  no_200_passing : ℚ
  liquid_limit : ℚ
  plastic_limit : ℚ
  plasticity_index : ℚ
  aashto_class_text : String
  spec_gravity : ℚ
  max_lab_dry_density : ℚ
  optimum_lab_moisture : ℚ
  hydraulic_conductivity : ℚ
deriving DecidableEq, Repr

/-- appbase.py line 73: the selectbox options of the Base variant. -/
def aashto_options : List String :=
  ["A-1-a", "A-1-b", "A-2-4", "A-2-6", "A-2-7", "A-3", "A-4", "A-5", "A-6", "A-7-6"]

/-- appbase.py lines 83-88: the dict `aashto_encoding`; a key outside the
ten entries raises KeyError, modelled as `none`. -/
def aashto_encoding : String → Option ℕ
  | "A-1-a" => some 0
  | "A-1-b" => some 1
  | "A-2-4" => some 2
  | "A-2-6" => some 3
  | "A-2-7" => some 4
  | "A-3" => some 5
  | "A-4" => some 6
  | "A-5" => some 7
  | "A-6" => some 8
  | "A-7-6" => some 9
  | _ => none

/-- The Base schema: column names of the pd.DataFrame literal of
appbase.py lines 99-114, in source order. -/
def base_schema : List String :=
  ["REPR_THICKNESS", "NO_4_PASSING", "NO_10_PASSING", "NO_40_PASSING",
   "NO_80_PASSING", "NO_200_PASSING", "LIQUID_LIMIT", "PLASTIC_LIMIT",
   "PLASTICITY_INDEX", "AASHTO_SOIL_CLASS", "SPEC_GRAVITY",
   "MAX_LAB_DRY_DENSITY", "OPTIMUM_LAB_MOISTURE", "HYDRAULIC_CONDUCTIVITY"]

/-- appbase.py lines 99-114: `input_data = pd.DataFrame(...)`, given the
already-computed integer AASHTO code. -/
def base_input_data (i : BaseInput) (code : ℕ) : Row :=
  [("REPR_THICKNESS", .num i.layer_thickness),
   ("NO_4_PASSING", .num i.no_4_passing),
   ("NO_10_PASSING", .num i.no_10_passing),
   ("NO_40_PASSING", .num i.no_40_passing),
   ("NO_80_PASSING", .num i.no_80_passing),
   ("NO_200_PASSING", .num i.no_200_passing),
   ("LIQUID_LIMIT", .num i.liquid_limit),
   ("PLASTIC_LIMIT", .num i.plastic_limit),
   ("PLASTICITY_INDEX", .num i.plasticity_index),
   ("AASHTO_SOIL_CLASS", .int code),
   ("SPEC_GRAVITY", .num i.spec_gravity),
   ("MAX_LAB_DRY_DENSITY", .num i.max_lab_dry_density),
   ("OPTIMUM_LAB_MOISTURE", .num i.optimum_lab_moisture),
   ("HYDRAULIC_CONDUCTIVITY", .num i.hydraulic_conductivity)]

/-- appbase.py lines 120-134: the `all_inputs_filled` check, one
comparison per field in source order. -/
def base_all_inputs_filled (i : BaseInput) : Bool :=
  decide (0 < i.layer_thickness) &&
  decide (0 < i.no_4_passing) &&
  decide (0 < i.no_10_passing) &&
  decide (0 < i.no_40_passing) &&
  decide (0 < i.no_80_passing) &&
  decide (0 < i.no_200_passing) &&
  decide (0 < i.liquid_limit) &&
  decide (0 < i.plastic_limit) &&
  decide (0 ≤ i.plasticity_index) &&
  decide (0 < i.spec_gravity) &&
  decide (0 < i.max_lab_dry_density) &&
  decide (0 < i.optimum_lab_moisture) &&
  decide (0 < i.hydraulic_conductivity)

/-- What one rerun of appbase.py (or appsubgrade.py) did: the record it
assembled, the messages it showed, the rows passed to the model's predict
method, and the displayed result. -/
structure RunOutcome where
  assembled : Row
  warning_fill : Bool
  model_not_loaded : Bool
  predict_calls : List Row
  predict_error : Bool
  result : Option ℚ
deriving DecidableEq

/-- One rerun of appbase.py with a predict trigger: the AASHTO lookup at
line 89 (KeyError, i.e. `none`, stops the script), `input_data` is built
unconditionally at lines 99-114, the gate at lines 120-134 disables the
button with a warning, and the button branch (lines 137-158) calls
predict inside try/except once the model is loaded. -/
def runBase (i : BaseInput) (m : Option Model) (clicked : Bool) :
    Option RunOutcome :=
  match aashto_encoding i.aashto_class_text with
  | none => none
  | some code =>
    let row := base_input_data i code
    if base_all_inputs_filled i = false then
      some { assembled := row, warning_fill := true, model_not_loaded := false,
             predict_calls := [], predict_error := false, result := none }
    else if clicked then
      match m with
      | none =>
        some { assembled := row, warning_fill := false, model_not_loaded := true,
               predict_calls := [], predict_error := false, result := none }
      | some f =>
        match f row with
        | .ok v =>
          some { assembled := row, warning_fill := false, model_not_loaded := false,
                 predict_calls := [row], predict_error := false, result := some v }
        | .error _ =>
          some { assembled := row, warning_fill := false, model_not_loaded := false,
                 predict_calls := [row], predict_error := true, result := none }
    else
      some { assembled := row, warning_fill := false, model_not_loaded := false,
             predict_calls := [], predict_error := false, result := none }

/-! ## Model loading and caching (appbase.py lines 34-46) -/

/-- appbase.py lines 35-42: `load_model` deserializes the artifact inside
try/except and returns `None` on failure.  The artifact's deserialization
outcome is the parameter. -/
def load_model (artifact : Except String Model) : Option Model :=
  match artifact with
  | .ok m => some m
  | .error _ => none

/-- Process state of the st.cache_resource decorator: the cached return
value of `load_model` (if computed) and how many deserialization attempts
ran. -/
structure Process where
  cache : Option (Option Model)
  deserial_count : ℕ

/-- The fresh process: nothing cached, no deserialization attempted. -/
def initProcess : Process := { cache := none, deserial_count := 0 }

/-- Calling the st.cache_resource-decorated `load_model`: the body (one
deserialization attempt) runs only when no result is cached. -/
def cached_load_model (artifact : Except String Model) (p : Process) :
    Option Model × Process :=
  match p.cache with
  | some r => (r, p)
  | none =>
    (load_model artifact,
     { cache := some (load_model artifact),
       deserial_count := p.deserial_count + 1 })

/-- A full rerun of appbase.py inside one process: fetch the (cached)
model handle at line 46, then run the page. -/
def runBaseProcess (artifact : Except String Model) (p : Process)
    (i : BaseInput) (clicked : Bool) : Option RunOutcome × Process :=
  let mp := cached_load_model artifact p
  (runBase i mp.1 clicked, mp.2)

/-- A sequence of reruns (predict triggers) in one process lifetime. -/
def runBaseSeq (artifact : Except String Model) (p : Process) :
    List (BaseInput × Bool) → List (Option RunOutcome) × Process
  | [] => ([], p)
  | t :: ts =>
    let r := runBaseProcess artifact p t.1 t.2
    let rest := runBaseSeq artifact r.2 ts
    (r.1 :: rest.1, rest.2)

/-! ## Subgrade variant (appsubgrade.py) -/

/-- Snapshot of the Subgrade variant's widget values at a rerun
(appsubgrade.py lines 53-79). -/
structure SubgradeInput where
  no_4_passing : ℚ
  no_10_passing : ℚ
  no_40_passing : ℚ
  no_80_passing : ℚ
  no_200_passing : ℚ
  coarse_sand : ℚ
  fine_sand : ℚ
  silt : ℚ
  clay : ℚ
  max_lab_dry_density : ℚ
  optimum_lab_moisture : ℚ
  liquid_limit : ℚ
  plastic_limit : ℚ
deriving DecidableEq, Repr

/-- The Subgrade schema: column names of the pd.DataFrame literal of
appsubgrade.py lines 81-95, in source order. -/
def subgrade_schema : List String :=
  ["NO_4_PASSING", "NO_10_PASSING", "NO_40_PASSING", "NO_80_PASSING",
   "NO_200_PASSING", "COARSE_SAND", "FINE_SAND", "SILT", "CLAY",
   "MAX_LAB_DRY_DENSITY", "OPTIMUM_LAB_MOISTURE", "LIQUID_LIMIT",
   "PLASTIC_LIMIT"]

/-- appsubgrade.py lines 81-95: `input_data = pd.DataFrame(...)`. -/
def subgrade_input_data (i : SubgradeInput) : Row :=
  [("NO_4_PASSING", .num i.no_4_passing),
   ("NO_10_PASSING", .num i.no_10_passing),
   ("NO_40_PASSING", .num i.no_40_passing),
   ("NO_80_PASSING", .num i.no_80_passing),
   ("NO_200_PASSING", .num i.no_200_passing),
   ("COARSE_SAND", .num i.coarse_sand),
   ("FINE_SAND", .num i.fine_sand),
   ("SILT", .num i.silt),
   ("CLAY", .num i.clay),
   ("MAX_LAB_DRY_DENSITY", .num i.max_lab_dry_density),
   ("OPTIMUM_LAB_MOISTURE", .num i.optimum_lab_moisture),
   ("LIQUID_LIMIT", .num i.liquid_limit),
   ("PLASTIC_LIMIT", .num i.plastic_limit)]

/-- appsubgrade.py lines 101-115: the `all_inputs_filled` check, one
comparison per field in source order. -/
def subgrade_all_inputs_filled (i : SubgradeInput) : Bool :=
  decide (0 < i.no_4_passing) &&
  decide (0 < i.no_10_passing) &&
  decide (0 < i.no_40_passing) &&
  decide (0 < i.no_80_passing) &&
  decide (0 < i.no_200_passing) &&
  decide (0 ≤ i.coarse_sand) &&
  decide (0 ≤ i.fine_sand) &&
  decide (0 ≤ i.silt) &&
  decide (0 ≤ i.clay) &&
  decide (0 < i.max_lab_dry_density) &&
  decide (0 < i.optimum_lab_moisture) &&
  decide (0 < i.liquid_limit) &&
  decide (0 < i.plastic_limit)

/-- One rerun of appsubgrade.py with a predict trigger: `input_data` is
built unconditionally at lines 81-95, the gate at lines 101-115 disables
the button with a warning, and the button branch (lines 118-139) calls
predict inside try/except once the model is loaded. -/
def runSubgrade (i : SubgradeInput) (m : Option Model) (clicked : Bool) :
    RunOutcome :=
  let row := subgrade_input_data i
  if subgrade_all_inputs_filled i = false then
    { assembled := row, warning_fill := true, model_not_loaded := false,
      predict_calls := [], predict_error := false, result := none }
  else if clicked then
    match m with
    | none =>
      { assembled := row, warning_fill := false, model_not_loaded := true,
        predict_calls := [], predict_error := false, result := none }
    | some f =>
      match f row with
      | .ok v =>
        { assembled := row, warning_fill := false, model_not_loaded := false,
          predict_calls := [row], predict_error := false, result := some v }
      | .error _ =>
        { assembled := row, warning_fill := false, model_not_loaded := false,
          predict_calls := [row], predict_error := true, result := none }
  else
    { assembled := row, warning_fill := false, model_not_loaded := false,
      predict_calls := [], predict_error := false, result := none }

/-! ## Demo variant (appbas11.py) -/

/-- Snapshot of the demo variant's widget values at a rerun
(appbas11.py lines 19-137). -/
structure DemoInput where
  repr_thickness : ℚ
  no_4_passing : ℚ
  no_10_passing : ℚ
  no_40_passing : ℚ
  no_80_passing : ℚ
  no_200_passing : ℚ
  liquid_limit : ℚ
  plastic_limit : ℚ
  plasticity_index : ℚ
  aashto_soil_class : String
  spec_gravity : ℚ
  max_lab_dry_density : ℚ
  optimum_lab_moisture : ℚ
  hydraulic_conductivity : ℚ
deriving DecidableEq, Repr

/-- appbas11.py lines 102-106: the demo selectbox options (12 labels,
including A-2-5 and A-7-5). -/
def demo_aashto_options : List String :=
  ["A-1-a", "A-1-b", "A-2-4", "A-2-5", "A-2-6", "A-2-7", "A-3", "A-4",
   "A-5", "A-6", "A-7-5", "A-7-6"]

/-- appbas11.py lines 145-150: `all([...])` over the fourteen collected
values; a float is truthy iff non-zero, a string iff non-empty. -/
def demo_all_truthy (i : DemoInput) : Bool :=
  decide (i.repr_thickness ≠ 0) &&
  decide (i.no_4_passing ≠ 0) &&
  decide (i.no_10_passing ≠ 0) &&
  decide (i.no_40_passing ≠ 0) &&
  decide (i.no_80_passing ≠ 0) &&
  decide (i.no_200_passing ≠ 0) &&
  decide (i.liquid_limit ≠ 0) &&
  decide (i.plastic_limit ≠ 0) &&
  decide (i.plasticity_index ≠ 0) &&
  decide (i.aashto_soil_class ≠ "") &&
  decide (i.spec_gravity ≠ 0) &&
  decide (i.max_lab_dry_density ≠ 0) &&
  decide (i.optimum_lab_moisture ≠ 0) &&
  decide (i.hydraulic_conductivity ≠ 0)

/-- appbas11.py lines 153-168: the demo `input_data = pd.DataFrame(...)`;
the AASHTO class is inserted as the raw string. -/
def demo_input_data (i : DemoInput) : Row :=
  [("REPR_THICKNESS", .num i.repr_thickness),
   ("NO_4_PASSING", .num i.no_4_passing),
   ("NO_10_PASSING", .num i.no_10_passing),
   ("NO_40_PASSING", .num i.no_40_passing),
   ("NO_80_PASSING", .num i.no_80_passing),
   ("NO_200_PASSING", .num i.no_200_passing),
   ("LIQUID_LIMIT", .num i.liquid_limit),
   ("PLASTIC_LIMIT", .num i.plastic_limit),
   ("PLASTICITY_INDEX", .num i.plasticity_index),
   ("AASHTO_SOIL_CLASS", .str i.aashto_soil_class),
   ("SPEC_GRAVITY", .num i.spec_gravity),
   ("MAX_LAB_DRY_DENSITY", .num i.max_lab_dry_density),
   ("OPTIMUM_LAB_MOISTURE", .num i.optimum_lab_moisture),
   ("HYDRAULIC_CONDUCTIVITY", .num i.hydraulic_conductivity)]

/-- appbas11.py lines 183-189: the demo formula for the displayed
prediction. -/
def predicted_modulus (i : DemoInput) : ℚ :=
  i.repr_thickness * 0.5 +
  i.max_lab_dry_density * 1000 +
  i.spec_gravity * 500 -
  i.optimum_lab_moisture * 50 +
  i.no_4_passing * 2

/-- What one rerun of appbas11.py did: the demo assembles the record and
computes the prediction only inside the gate branch. -/
structure DemoRunOutcome where
  assembled : Option Row
  error_fill : Bool
  result : Option ℚ
deriving DecidableEq

/-- One rerun of appbas11.py (lines 143-237): everything happens inside
the button-click branch; if the all-truthy gate fails, only the error
message is shown and no record is assembled. -/
def runDemo (i : DemoInput) (clicked : Bool) : DemoRunOutcome :=
  if clicked then
    if demo_all_truthy i then
      { assembled := some (demo_input_data i), error_fill := false,
        result := some (predicted_modulus i) }
    else
      { assembled := none, error_fill := true, result := none }
  else
    { assembled := none, error_fill := false, result := none }

/-! ## Concrete sample inputs -/

/-- The end-to-end Base scenario input of spec section 8. -/
def baseSample : BaseInput :=
  { layer_thickness := 150, no_4_passing := 90, no_10_passing := 80,
    no_40_passing := 60, no_80_passing := 40, no_200_passing := 20,
    liquid_limit := 25, plastic_limit := 15, plasticity_index := 10,
    aashto_class_text := "A-4", spec_gravity := 2.65,
    max_lab_dry_density := 2, optimum_lab_moisture := 10,
    hydraulic_conductivity := 1e-7 }

/-- A Base input failing the gate (zero layer thickness). -/
def baseGateFail : BaseInput := { baseSample with layer_thickness := 0 }

/-- A second gate-passing Base input (class A-3, integer-valued fields). -/
def baseSampleB : BaseInput :=
  { layer_thickness := 100, no_4_passing := 95, no_10_passing := 85,
    no_40_passing := 65, no_80_passing := 45, no_200_passing := 25,
    liquid_limit := 30, plastic_limit := 20, plasticity_index := 10,
    aashto_class_text := "A-3", spec_gravity := 3,
    max_lab_dry_density := 2, optimum_lab_moisture := 12,
    hydraulic_conductivity := 1 }

/-- A Subgrade input with clay exactly zero and every other field
strictly positive. -/
def subgradeClayZero : SubgradeInput :=
  { no_4_passing := 90, no_10_passing := 80, no_40_passing := 60,
    no_80_passing := 40, no_200_passing := 20, coarse_sand := 25,
    fine_sand := 25, silt := 30, clay := 0, max_lab_dry_density := 2,
    optimum_lab_moisture := 10, liquid_limit := 25, plastic_limit := 15 }

/-- A Subgrade input failing the gate (zero No. 4 passing). -/
def subgradeGateFail : SubgradeInput := { subgradeClayZero with no_4_passing := 0 }

/-- A demo input with every collected value truthy. -/
def demoSample : DemoInput :=
  { repr_thickness := 150, no_4_passing := 90, no_10_passing := 80,
    no_40_passing := 60, no_80_passing := 40, no_200_passing := 20,
    liquid_limit := 25, plastic_limit := 15, plasticity_index := 10,
    aashto_soil_class := "A-4", spec_gravity := 2.65,
    max_lab_dry_density := 2, optimum_lab_moisture := 10,
    hydraulic_conductivity := 1e-7 }

/-- A demo input agreeing with `demoSample` on the five fields the demo
formula reads, differing in class, liquid limit and plasticity index. -/
def demoSampleB : DemoInput :=
  { demoSample with aashto_soil_class := "A-2-5", liquid_limit := 40, plasticity_index := 7 }

/-- A demo input with plasticity index exactly zero and every other
collected value truthy. -/
def demoPIZero : DemoInput := { demoSample with plasticity_index := 0 }

/-- An estimator that raises on the row assembled from `baseSampleB` and
returns 123 on any other row. -/
def modelFlaky : Model := fun row =>
  if row = base_input_data baseSampleB 5 then .error "schema mismatch"
  else .ok 123

/-- A second gate-passing Subgrade input (different No. 4 passing). -/
def subgradeSampleB : SubgradeInput := { subgradeClayZero with no_4_passing := 95 }

/-- An estimator that raises on the row assembled from `subgradeClayZero`
and returns 77 on any other row. -/
def subModelFlaky : Model := fun row =>
  if row = subgrade_input_data subgradeClayZero then .error "schema mismatch"
  else .ok 77

/-! ## Theorems -/

/-- The end-to-end sample passes the Base gate. -/
theorem baseSample_filled : base_all_inputs_filled baseSample = true := by
  norm_num [base_all_inputs_filled, baseSample]

/-- The all-truthy demo sample passes the demo gate. -/
theorem demoSample_truthy : demo_all_truthy demoSample = true := by
  norm_num [demo_all_truthy, demoSample]
  all_goals decide

/-- The variant demo sample passes the demo gate. -/
theorem demoSampleB_truthy : demo_all_truthy demoSampleB = true := by
  norm_num [demo_all_truthy, demoSampleB, demoSample]
  all_goals decide

/-- C1: for every input set passing its variant's gate, the assembled
single-row record has exactly the section-6 column names, in the
section-6 left-to-right order, with no extra and no missing columns: the
14 Base columns REPR_THICKNESS through HYDRAULIC_CONDUCTIVITY, and the 13
Subgrade columns NO_4_PASSING through PLASTIC_LIMIT. -/
theorem c1_record_schema :
    (∀ (i : BaseInput) (code : ℕ),
        aashto_encoding i.aashto_class_text = some code →
        base_all_inputs_filled i = true →
        (base_input_data i code).map Prod.fst = base_schema) ∧
    (∀ j : SubgradeInput, subgrade_all_inputs_filled j = true →
        (subgrade_input_data j).map Prod.fst = subgrade_schema) := by
  constructor
  · intro i code _ _
    rfl
  · intro j _
    rfl

/-- Witness for C1 at the concrete gate-passing sample inputs. -/
theorem c1_record_schema_witness :
    (base_input_data baseSample 6).map Prod.fst = base_schema ∧
    (subgrade_input_data subgradeClayZero).map Prod.fst = subgrade_schema :=
  ⟨c1_record_schema.1 baseSample 6 rfl baseSample_filled,
   c1_record_schema.2 subgradeClayZero (by decide)⟩

/-- C2: the Base AASHTO encoding maps each of the ten defined labels to
its documented integer, and the lookup on the two undefined labels
A-2-5 and A-7-5 fails (KeyError, modelled as none) rather than producing
a default code. -/
theorem c2_aashto_encoding_table :
    aashto_encoding "A-1-a" = some 0 ∧ aashto_encoding "A-1-b" = some 1 ∧
    aashto_encoding "A-2-4" = some 2 ∧ aashto_encoding "A-2-6" = some 3 ∧
    aashto_encoding "A-2-7" = some 4 ∧ aashto_encoding "A-3" = some 5 ∧
    aashto_encoding "A-4" = some 6 ∧ aashto_encoding "A-5" = some 7 ∧
    aashto_encoding "A-6" = some 8 ∧ aashto_encoding "A-7-6" = some 9 ∧
    aashto_encoding "A-2-5" = none ∧ aashto_encoding "A-7-5" = none := by
  decide

/-- C3: the Base and Subgrade gates are ready exactly when each field
individually passes its comparison — strictly positive for the continuous
quantities, non-negative for the Base plasticity index and the Subgrade
composition percentages — and the Subgrade input with clay = 0 and all
other fields strictly positive is accepted. -/
theorem c3_validation_gates :
    (∀ i : BaseInput, base_all_inputs_filled i = true ↔
        (0 < i.layer_thickness ∧ 0 < i.no_4_passing ∧ 0 < i.no_10_passing ∧
         0 < i.no_40_passing ∧ 0 < i.no_80_passing ∧ 0 < i.no_200_passing ∧
         0 < i.liquid_limit ∧ 0 < i.plastic_limit ∧ 0 ≤ i.plasticity_index ∧
         0 < i.spec_gravity ∧ 0 < i.max_lab_dry_density ∧
         0 < i.optimum_lab_moisture ∧ 0 < i.hydraulic_conductivity)) ∧
    (∀ j : SubgradeInput, subgrade_all_inputs_filled j = true ↔
        (0 < j.no_4_passing ∧ 0 < j.no_10_passing ∧ 0 < j.no_40_passing ∧
         0 < j.no_80_passing ∧ 0 < j.no_200_passing ∧ 0 ≤ j.coarse_sand ∧
         0 ≤ j.fine_sand ∧ 0 ≤ j.silt ∧ 0 ≤ j.clay ∧
         0 < j.max_lab_dry_density ∧ 0 < j.optimum_lab_moisture ∧
         0 < j.liquid_limit ∧ 0 < j.plastic_limit)) ∧
    subgradeClayZero.clay = 0 ∧
    subgrade_all_inputs_filled subgradeClayZero = true := by
  refine ⟨?_, ?_, rfl, by decide⟩
  · intro i
    simp [base_all_inputs_filled, and_assoc]
  · intro j
    simp [subgrade_all_inputs_filled, and_assoc]

/-- Witness for C3 at the concrete sample inputs. -/
theorem c3_validation_gates_witness :
    subgrade_all_inputs_filled subgradeClayZero = true ∧
    0 < baseSample.layer_thickness :=
  ⟨c3_validation_gates.2.2.2,
   ((c3_validation_gates.1 baseSample).mp baseSample_filled).1⟩

/-- C6: the demo gate is ready exactly when every collected value is
truthy (non-zero number, non-empty string); the input with plasticity
index 0 and all other values truthy is rejected: the error branch runs,
no record is assembled and no prediction is computed. -/
theorem c6_demo_truthy_gate :
    (∀ i : DemoInput, demo_all_truthy i = true ↔
        (i.repr_thickness ≠ 0 ∧ i.no_4_passing ≠ 0 ∧ i.no_10_passing ≠ 0 ∧
         i.no_40_passing ≠ 0 ∧ i.no_80_passing ≠ 0 ∧ i.no_200_passing ≠ 0 ∧
         i.liquid_limit ≠ 0 ∧ i.plastic_limit ≠ 0 ∧ i.plasticity_index ≠ 0 ∧
         i.aashto_soil_class ≠ "" ∧ i.spec_gravity ≠ 0 ∧
         i.max_lab_dry_density ≠ 0 ∧ i.optimum_lab_moisture ≠ 0 ∧
         i.hydraulic_conductivity ≠ 0)) ∧
    demoPIZero.plasticity_index = 0 ∧
    demo_all_truthy demoPIZero = false ∧
    runDemo demoPIZero true =
      { assembled := none, error_fill := true, result := none } := by
  refine ⟨?_, rfl, rfl, rfl⟩
  intro i
  simp [demo_all_truthy, and_assoc]

/-- Witness for C6 at the all-truthy demo sample. -/
theorem c6_demo_truthy_gate_witness :
    demoSample.aashto_soil_class ≠ "" ∧ demoSample.plasticity_index ≠ 0 :=
  ⟨((c6_demo_truthy_gate.1 demoSample).mp demoSample_truthy).2.2.2.2.2.2.2.2.2.1,
   ((c6_demo_truthy_gate.1 demoSample).mp demoSample_truthy).2.2.2.2.2.2.2.2.1⟩

/-- C10: the demo prediction equals the five-field formula, so any two
gate-passing demo inputs agreeing on thickness, maximum dry density,
specific gravity, optimum moisture and No. 4 passing display the same
predicted modulus, whatever the other nine fields are. -/
theorem c10_demo_depends_on_five_fields :
    ∀ a b : DemoInput, demo_all_truthy a = true → demo_all_truthy b = true →
      a.repr_thickness = b.repr_thickness →
      a.max_lab_dry_density = b.max_lab_dry_density →
      a.spec_gravity = b.spec_gravity →
      a.optimum_lab_moisture = b.optimum_lab_moisture →
      a.no_4_passing = b.no_4_passing →
      (runDemo a true).result = (runDemo b true).result ∧
      (runDemo a true).result = some
        (a.repr_thickness * 0.5 + a.max_lab_dry_density * 1000 +
         a.spec_gravity * 500 - a.optimum_lab_moisture * 50 +
         a.no_4_passing * 2) := by
  intro a b ha hb h1 h2 h3 h4 h5
  constructor
  · simp [runDemo, ha, hb, predicted_modulus, h1, h2, h3, h4, h5]
  · simp [runDemo, ha, predicted_modulus]

/-- Witness for C10: two concrete gate-passing demo inputs differing in
AASHTO class, liquid limit and plasticity index display the same
prediction. -/
theorem c10_demo_depends_on_five_fields_witness :
    demoSample.aashto_soil_class ≠ demoSampleB.aashto_soil_class ∧
    (runDemo demoSample true).result = (runDemo demoSampleB true).result :=
  ⟨by decide,
   (c10_demo_depends_on_five_fields demoSample demoSampleB demoSample_truthy
     demoSampleB_truthy rfl rfl rfl rfl rfl).1⟩

/-- Counterexample to C4: on a rerun whose Base input fails the gate
(zero thickness), the predict action is rejected with a warning, yet the
full 14-column record is still assembled. -/
theorem c4_counterexample :
    base_all_inputs_filled baseGateFail = false ∧
    runBase baseGateFail none false =
      some { assembled := base_input_data baseGateFail 6, warning_fill := true,
             model_not_loaded := false, predict_calls := [],
             predict_error := false, result := none } ∧
    (base_input_data baseGateFail 6).map Prod.fst = base_schema :=
  ⟨rfl, rfl, rfl⟩

/-- C4 (amended): whenever the Validation Gate is not ready, the predict
action is rejected with a user-visible message and no prediction is
attempted (the model is never invoked and no result is shown); the demo
variant assembles no record, while the Base and Subgrade variants still
assemble the full record on every rerun without passing it to the
model. -/
theorem c4_no_prediction_when_not_ready :
    (∀ (i : BaseInput) (m : Option Model) (clicked : Bool) (o : RunOutcome),
        base_all_inputs_filled i = false → runBase i m clicked = some o →
        o.warning_fill = true ∧ o.predict_calls = [] ∧ o.result = none ∧
        o.model_not_loaded = false ∧ o.predict_error = false ∧
        o.assembled.map Prod.fst = base_schema) ∧
    (∀ (j : SubgradeInput) (m : Option Model) (clicked : Bool),
        subgrade_all_inputs_filled j = false →
        (runSubgrade j m clicked).warning_fill = true ∧
        (runSubgrade j m clicked).predict_calls = [] ∧
        (runSubgrade j m clicked).result = none ∧
        (runSubgrade j m clicked).assembled.map Prod.fst = subgrade_schema) ∧
    (∀ (d : DemoInput) (clicked : Bool), demo_all_truthy d = false →
        (runDemo d clicked).assembled = none ∧
        (runDemo d clicked).result = none ∧
        (runDemo d true).error_fill = true) := by
  refine ⟨?_, ?_, ?_⟩
  · intro i m clicked o hg hr
    cases he : aashto_encoding i.aashto_class_text with
    | none => simp [runBase, he] at hr
    | some code =>
      simp [runBase, he, hg] at hr
      subst hr
      exact ⟨rfl, rfl, rfl, rfl, rfl, rfl⟩
  · intro j m clicked hg
    simp [runSubgrade, hg]
    rfl
  · intro d clicked hg
    cases clicked <;> simp [runDemo, hg]

/-- Witness for C4 (amended) at concrete gate-failing inputs for each
variant. -/
theorem c4_no_prediction_when_not_ready_witness :
    (base_input_data baseGateFail 6).map Prod.fst = base_schema ∧
    (runSubgrade subgradeGateFail none true).warning_fill = true ∧
    (runDemo demoPIZero true).assembled = none ∧
    (runDemo demoPIZero true).error_fill = true :=
  ⟨(c4_no_prediction_when_not_ready.1 baseGateFail none true
      { assembled := base_input_data baseGateFail 6, warning_fill := true,
        model_not_loaded := false, predict_calls := [],
        predict_error := false, result := none } rfl rfl).2.2.2.2.2,
   (c4_no_prediction_when_not_ready.2.1 subgradeGateFail none true (by decide)).1,
   (c4_no_prediction_when_not_ready.2.2 demoPIZero true rfl).1,
   (c4_no_prediction_when_not_ready.2.2 demoPIZero true rfl).2.2⟩

/-- Counterexample to C5: the Base variant's selectable options list does
not contain A-2-5 or A-7-5 at all. -/
theorem c5_counterexample :
    "A-2-5" ∉ aashto_options ∧ "A-7-5" ∉ aashto_options := by
  decide

/-- C5 (amended): every label in the Base variant's selectable options
list has a defined encoding, so no reachable Base selection makes the
lookup fail; the labels A-2-5 and A-7-5 appear instead in the demo
variant's options list, and the demo performs no encoding lookup — it
inserts the raw class string into the record. -/
theorem c5_base_options_all_encoded :
    (∀ o ∈ aashto_options, (aashto_encoding o).isSome = true) ∧
    "A-2-5" ∈ demo_aashto_options ∧ "A-7-5" ∈ demo_aashto_options ∧
    (∀ d : DemoInput,
        ("AASHTO_SOIL_CLASS", Cell.str d.aashto_soil_class) ∈
          demo_input_data d) := by
  refine ⟨by decide, by decide, by decide, ?_⟩
  intro d
  simp [demo_input_data]

/-- Witness for C5 (amended) at a concrete option and a concrete demo
input whose class is A-2-5. -/
theorem c5_base_options_all_encoded_witness :
    (aashto_encoding "A-4").isSome = true ∧
    ("AASHTO_SOIL_CLASS", Cell.str demoSampleB.aashto_soil_class) ∈
      demo_input_data demoSampleB :=
  ⟨c5_base_options_all_encoded.1 "A-4" (by decide),
   c5_base_options_all_encoded.2.2.2 demoSampleB⟩

/-- In a process whose load result is cached, further reruns reuse the
cached handle and never rerun the deserialization. -/
theorem runBaseSeq_cached (a : Except String Model) (r : Option Model)
    (c : ℕ) (ts : List (BaseInput × Bool)) :
    runBaseSeq a { cache := some r, deserial_count := c } ts =
      (ts.map fun t => runBase t.1 r t.2,
       { cache := some r, deserial_count := c }) := by
  induction ts with
  | nil => rfl
  | cons t ts ih => simp [runBaseSeq, runBaseProcess, cached_load_model, ih]

/-- C7: when the artifact fails to load, the result `None` is cached, so
a whole process lifetime performs at most one deserialization attempt (one
if any rerun happens), every rerun sees the model-unavailable handle, and
every gated predict trigger is rejected with the model-not-loaded error —
no prediction, no call into an estimator, no crash. -/
theorem c7_model_unavailable :
    ∀ (msg : String) (ts : List (BaseInput × Bool)),
      (runBaseSeq (Except.error msg) initProcess ts).1 =
        ts.map (fun t => runBase t.1 none t.2) ∧
      (runBaseSeq (Except.error msg) initProcess ts).2.deserial_count =
        (if ts.isEmpty then 0 else 1) ∧
      (∀ (i : BaseInput) (code : ℕ),
          aashto_encoding i.aashto_class_text = some code →
          base_all_inputs_filled i = true →
          runBase i none true =
            some { assembled := base_input_data i code, warning_fill := false,
                   model_not_loaded := true, predict_calls := [],
                   predict_error := false, result := none }) := by
  intro msg ts
  refine ⟨?_, ?_, ?_⟩
  · cases ts with
    | nil => rfl
    | cons t ts =>
      simp [runBaseSeq, runBaseProcess, cached_load_model, initProcess,
        load_model, runBaseSeq_cached]
  · cases ts with
    | nil => rfl
    | cons t ts =>
      simp [runBaseSeq, runBaseProcess, cached_load_model, initProcess,
        load_model, runBaseSeq_cached]
  · intro i code he hg
    simp [runBase, he, hg]

/-- Witness for C7: two reruns after a failed load deserialize only once,
and the concrete gated trigger is rejected with the model-not-loaded
error. -/
theorem c7_model_unavailable_witness :
    (runBaseSeq (Except.error "missing file") initProcess
        [(baseSampleB, true), (baseSampleB, true)]).2.deserial_count = 1 ∧
    runBase baseSampleB none true =
      some { assembled := base_input_data baseSampleB 5, warning_fill := false,
             model_not_loaded := true, predict_calls := [],
             predict_error := false, result := none } := by
  refine ⟨?_,
    (c7_model_unavailable "missing file" []).2.2 baseSampleB 5 rfl (by decide)⟩
  have h := (c7_model_unavailable "missing file"
    [(baseSampleB, true), (baseSampleB, true)]).2.1
  simpa using h

/-- C8: in both the Base and the Subgrade variant, when the loaded
estimator's inference call raises on a gated, clicked rerun, the
exception is caught at the predict boundary — the outcome shows the
prediction-error message (with the guidance warning) and displays no
result — the process state is untouched by any rerun once the load result
is cached, and a rerun on which the same estimator returns a value
displays that value. -/
theorem c8_predict_error_handling :
    (∀ (f : Model) (i : BaseInput) (code : ℕ) (e : String),
        aashto_encoding i.aashto_class_text = some code →
        base_all_inputs_filled i = true →
        f (base_input_data i code) = Except.error e →
        runBase i (some f) true =
          some { assembled := base_input_data i code, warning_fill := false,
                 model_not_loaded := false,
                 predict_calls := [base_input_data i code],
                 predict_error := true, result := none }) ∧
    (∀ (a : Except String Model) (p : Process) (r : Option Model)
        (i : BaseInput) (clicked : Bool), p.cache = some r →
        (runBaseProcess a p i clicked).2 = p) ∧
    (∀ (f : Model) (i : BaseInput) (code : ℕ) (v : ℚ),
        aashto_encoding i.aashto_class_text = some code →
        base_all_inputs_filled i = true →
        f (base_input_data i code) = Except.ok v →
        runBase i (some f) true =
          some { assembled := base_input_data i code, warning_fill := false,
                 model_not_loaded := false,
                 predict_calls := [base_input_data i code],
                 predict_error := false, result := some v }) ∧
    (∀ (f : Model) (j : SubgradeInput) (e : String),
        subgrade_all_inputs_filled j = true →
        f (subgrade_input_data j) = Except.error e →
        runSubgrade j (some f) true =
          { assembled := subgrade_input_data j, warning_fill := false,
            model_not_loaded := false,
            predict_calls := [subgrade_input_data j],
            predict_error := true, result := none }) ∧
    (∀ (f : Model) (j : SubgradeInput) (v : ℚ),
        subgrade_all_inputs_filled j = true →
        f (subgrade_input_data j) = Except.ok v →
        runSubgrade j (some f) true =
          { assembled := subgrade_input_data j, warning_fill := false,
            model_not_loaded := false,
            predict_calls := [subgrade_input_data j],
            predict_error := false, result := some v }) := by
  refine ⟨?_, ?_, ?_, ?_, ?_⟩
  · intro f i code e he hg hf
    simp [runBase, he, hg, hf]
  · intro a p r i clicked hp
    simp [runBaseProcess, cached_load_model, hp]
  · intro f i code v he hg hf
    simp [runBase, he, hg, hf]
  · intro f j e hg hf
    simp [runSubgrade, hg, hf]
  · intro f j v hg hf
    simp [runSubgrade, hg, hf]

/-- Witness for C8: the flaky Base estimator raises on the row of
`baseSampleB` (error surfaced, no result) and succeeds on the row of
`baseSample` (result displayed) in the same process, whose state a rerun
leaves unchanged; the flaky Subgrade estimator raises on the row of
`subgradeClayZero` and succeeds on the row of `subgradeSampleB`. -/
theorem c8_predict_error_handling_witness :
    runBase baseSampleB (some modelFlaky) true =
      some { assembled := base_input_data baseSampleB 5, warning_fill := false,
             model_not_loaded := false,
             predict_calls := [base_input_data baseSampleB 5],
             predict_error := true, result := none } ∧
    (runBaseProcess (Except.error "missing file")
        { cache := some (some modelFlaky), deserial_count := 1 }
        baseSample true).2 =
      { cache := some (some modelFlaky), deserial_count := 1 } ∧
    runBase baseSample (some modelFlaky) true =
      some { assembled := base_input_data baseSample 6, warning_fill := false,
             model_not_loaded := false,
             predict_calls := [base_input_data baseSample 6],
             predict_error := false, result := some 123 } ∧
    runSubgrade subgradeClayZero (some subModelFlaky) true =
      { assembled := subgrade_input_data subgradeClayZero,
        warning_fill := false, model_not_loaded := false,
        predict_calls := [subgrade_input_data subgradeClayZero],
        predict_error := true, result := none } ∧
    runSubgrade subgradeSampleB (some subModelFlaky) true =
      { assembled := subgrade_input_data subgradeSampleB,
        warning_fill := false, model_not_loaded := false,
        predict_calls := [subgrade_input_data subgradeSampleB],
        predict_error := false, result := some 77 } :=
  ⟨c8_predict_error_handling.1 modelFlaky baseSampleB 5 "schema mismatch"
     rfl (by decide) rfl,
   c8_predict_error_handling.2.1 (Except.error "missing file")
     { cache := some (some modelFlaky), deserial_count := 1 }
     (some modelFlaky) baseSample true rfl,
   c8_predict_error_handling.2.2.1 modelFlaky baseSample 6 123
     rfl baseSample_filled rfl,
   c8_predict_error_handling.2.2.2.1 subModelFlaky subgradeClayZero
     "schema mismatch" (by decide) rfl,
   c8_predict_error_handling.2.2.2.2 subModelFlaky subgradeSampleB 77
     (by decide) rfl⟩

/-- C9: for the end-to-end Base scenario input, whatever the loaded
estimator is, the rerun assembles exactly the fourteen scenario values in
schema order with the class encoded as the integer 6, and the estimator's
predict method is invoked exactly once, with exactly that row. -/
theorem c9_end_to_end_base :
    ∀ f : Model, ∃ o, runBase baseSample (some f) true = some o ∧
      o.assembled = base_input_data baseSample 6 ∧
      base_input_data baseSample 6 =
        [("REPR_THICKNESS", Cell.num 150), ("NO_4_PASSING", Cell.num 90),
         ("NO_10_PASSING", Cell.num 80), ("NO_40_PASSING", Cell.num 60),
         ("NO_80_PASSING", Cell.num 40), ("NO_200_PASSING", Cell.num 20),
         ("LIQUID_LIMIT", Cell.num 25), ("PLASTIC_LIMIT", Cell.num 15),
         ("PLASTICITY_INDEX", Cell.num 10), ("AASHTO_SOIL_CLASS", Cell.int 6),
         ("SPEC_GRAVITY", Cell.num 2.65), ("MAX_LAB_DRY_DENSITY", Cell.num 2),
         ("OPTIMUM_LAB_MOISTURE", Cell.num 10),
         ("HYDRAULIC_CONDUCTIVITY", Cell.num 1e-7)] ∧
      aashto_encoding baseSample.aashto_class_text = some 6 ∧
      o.predict_calls = [base_input_data baseSample 6] := by
  intro f
  have henc : aashto_encoding baseSample.aashto_class_text = some 6 := rfl
  cases h : f (base_input_data baseSample 6) with
  | ok v =>
    refine ⟨{ assembled := base_input_data baseSample 6, warning_fill := false,
              model_not_loaded := false,
              predict_calls := [base_input_data baseSample 6],
              predict_error := false, result := some v },
            ?_, rfl, rfl, rfl, rfl⟩
    simp [runBase, henc, baseSample_filled, h]
  | error e =>
    refine ⟨{ assembled := base_input_data baseSample 6, warning_fill := false,
              model_not_loaded := false,
              predict_calls := [base_input_data baseSample 6],
              predict_error := true, result := none },
            ?_, rfl, rfl, rfl, rfl⟩
    simp [runBase, henc, baseSample_filled, h]

/-- Witness for C9 at a concrete estimator. -/
theorem c9_end_to_end_base_witness :
    ∃ o, runBase baseSample (some modelFlaky) true = some o ∧
      o.assembled = base_input_data baseSample 6 ∧
      base_input_data baseSample 6 =
        [("REPR_THICKNESS", Cell.num 150), ("NO_4_PASSING", Cell.num 90),
         ("NO_10_PASSING", Cell.num 80), ("NO_40_PASSING", Cell.num 60),
         ("NO_80_PASSING", Cell.num 40), ("NO_200_PASSING", Cell.num 20),
         ("LIQUID_LIMIT", Cell.num 25), ("PLASTIC_LIMIT", Cell.num 15),
         ("PLASTICITY_INDEX", Cell.num 10), ("AASHTO_SOIL_CLASS", Cell.int 6),
         ("SPEC_GRAVITY", Cell.num 2.65), ("MAX_LAB_DRY_DENSITY", Cell.num 2),
         ("OPTIMUM_LAB_MOISTURE", Cell.num 10),
         ("HYDRAULIC_CONDUCTIVITY", Cell.num 1e-7)] ∧
      aashto_encoding baseSample.aashto_class_text = some 6 ∧
      o.predict_calls = [base_input_data baseSample 6] :=
  c9_end_to_end_base modelFlaky

end Subbase
